import Mathlib

/-!
Verification of the CEP→temperature two-service pipeline.

Shallow embedding of the Go sources:
* `ServiceA` — the instrumented Front Service (`service_a/api/handler.go`,
  `service_a/api/response.go`).
* `ServiceAPlain` — the non-instrumented Front Service (`service_a/main.go`).
* `ServiceB` — the instrumented Back Service (the `api` package of service B
  with OpenTelemetry spans).
* `ServiceBMain` — the startup logic of the Back Service `main`.

Conventions of the embedding:
* `float64` values are modelled as exact rationals (`ℚ`); the conversion
  formulas are applied verbatim, so the formula structure is preserved.
* An HTTP body received from a collaborator is modelled by what the Go
  `encoding/json` decoder sees in it: either it is not decodable into the
  target struct (`notJSON`, carrying the decoder's error message), or it is a
  JSON object from which each struct field is either present or absent
  (absent fields decode to Go zero values).
* A Go `error` that the handlers inspect via `err.Error()` string matching is
  modelled by its message string; an `error` inspected via `errors.Is` against
  the `ErrNotFound` sentinel is modelled by a tagged sum.
* Transport failures of `http.Client.Do`/`Get` are always `*url.Error`
  values, whose message is `Get "<url>": <underlying>`; `urlError` models
  that format.
* OpenTelemetry span operations are recorded as an event log
  (`List SpanEvent`) emitted in program order; `defer span.End()` appends the
  close event when the function returns, on every path.
-/

/-- The `WeatherResponse` / `TempResponse` / `SuccessResponse` JSON shape
`{city, temp_C, temp_F, temp_K}` shared by both services. -/
structure WeatherResponse where
  city : String
  tempC : ℚ
  tempF : ℚ
  tempK : ℚ
deriving DecidableEq, Repr

/-- A JSON body written by a handler: either an `ErrorResponse{message}` or a
`WeatherResponse`-shaped object. `empty` is the body of a Go handler that
returns without writing anything. -/
inductive RespBody where
  | errMsg (message : String)
  | weather (w : WeatherResponse)
  | empty
deriving DecidableEq, Repr

/-- An HTTP response as produced by `writeJSON`/`writeError`: a status code
and a JSON body. -/
structure HttpResponse where
  status : Nat
  body : RespBody
deriving DecidableEq, Repr

/-- One OpenTelemetry span operation, in program order. Only the span name
identifies the span: within one request every started span has a distinct
name. `setStatus` records whether the terminal status was `codes.Ok`. -/
inductive SpanEvent where
  | start (name : String)
  | recordError (name : String)
  | setStatus (name : String) (ok : Bool)
  | close (name : String)
deriving DecidableEq, Repr

/-- Is this event `start n`? -/
def isStartOf (n : String) : SpanEvent → Bool
  | .start m => m == n
  | _ => false

/-- Is this event `close n`? -/
def isCloseOf (n : String) : SpanEvent → Bool
  | .close m => m == n
  | _ => false

/-- `true` iff span `n` either never closes in the log, or a `setStatus` for
`n` occurs strictly before its first `close`. -/
def statusSetBeforeClose (n : String) : List SpanEvent → Bool
  | [] => true
  | .close m :: rest => if m == n then false else statusSetBeforeClose n rest
  | .setStatus m _ :: rest => if m == n then true else statusSetBeforeClose n rest
  | _ :: rest => statusSetBeforeClose n rest

/-- The names of all spans started in the log. -/
def startedNames : List SpanEvent → List String
  | [] => []
  | .start n :: rest => n :: startedNames rest
  | _ :: rest => startedNames rest

/-- Span `n` is started exactly once, closed exactly once, and a terminal
status is set on it before it closes. -/
def spanOk (log : List SpanEvent) (n : String) : Bool :=
  (log.filter (isStartOf n)).length == 1 &&
  (log.filter (isCloseOf n)).length == 1 &&
  statusSetBeforeClose n log

/-- Every span started in the log is closed exactly once with a terminal
status set before the close. -/
def spansWellFormed (log : List SpanEvent) : Bool :=
  (startedNames log).all (spanOk log)

/-- `IsValidCEP` / `isValidCEP`: `regexp.MustCompile("^\x5cd{8}$").MatchString cep`,
i.e. the string is exactly eight characters, each in the class `[0-9]`. -/
def IsValidCEP (cep : String) : Bool :=
  cep.length == 8 && cep.data.all (fun c => '0' ≤ c && c ≤ '9')

/-- What the Front Service's `json.Decoder` sees in the Back Service's
response body when decoding into `WeatherResponse`: `notJSON` when decoding
fails (with the decoder's error message), otherwise a JSON object whose
relevant fields are present or absent. -/
inductive Body where
  | notJSON (errMsg : String)
  | jsonObj (city : Option String) (tempC : Option ℚ) (tempF : Option ℚ) (tempK : Option ℚ)
deriving DecidableEq, Repr

/-- `json.Decoder.Decode(&weather)`: unknown fields are ignored and absent
fields are left at the Go zero value. -/
def decodeWeather : Body → Except String WeatherResponse
  | .notJSON m => .error m
  | .jsonObj city tempC tempF tempK =>
      .ok ⟨city.getD "", tempC.getD 0, tempF.getD 0, tempK.getD 0⟩

/-- Outcome of the Front Service's single HTTP call to the Back Service:
either `client.Do`/`client.Get` returns an error (transport failure, with the
underlying message), or a response with a status code and a body. -/
inductive DownstreamResult where
  | transportFail (underlying : String)
  | response (status : Nat) (body : Body)
deriving DecidableEq, Repr

/-- The message of the `*url.Error` returned by `http.Client.Do`/`Get` for a
GET request: `Get "<url>": <underlying>`. -/
def urlError (url underlying : String) : String :=
  "Get \"" ++ (url ++ ("\": " ++ underlying))

namespace ServiceA

/-- `Handler.callServiceB` (instrumented Front Service): issues the GET to
`ServiceBURL + "?cep=" + cep` and classifies the result, returning the Go
error's message string on failure, together with the span event log of the
`service-a: call-service-b` span. -/
def callServiceB (serviceBURL cep : String) (d : DownstreamResult) :
    Except String WeatherResponse × List SpanEvent :=
  let sp := "service-a: call-service-b"
  match d with
  | .transportFail u =>
      (.error (urlError (serviceBURL ++ "?cep=" ++ cep) u),
       [.start sp, .recordError sp, .setStatus sp false, .close sp])
  | .response status body =>
      if status = 404 then
        (.error "cannot find zipcode",
         [.start sp, .recordError sp, .setStatus sp false, .close sp])
      else if status = 422 then
        (.error "invalid zipcode",
         [.start sp, .recordError sp, .setStatus sp false, .close sp])
      else if status ≠ 200 then
        (.error ("service-b returned status " ++ toString status),
         [.start sp, .recordError sp, .setStatus sp false, .close sp])
      else
        match decodeWeather body with
        | .error m =>
            (.error m, [.start sp, .recordError sp, .setStatus sp false, .close sp])
        | .ok w =>
            (.ok w, [.start sp, .setStatus sp true, .close sp])

/-- `Handler.validateCEP`: decode the request body into `CEPRequest` (`none`
models an undecodable body, `some cep` the decoded `cep` field, `""` when the
field is absent or empty), then check emptiness and the 8-digit rule.
Returns the Go error's message string on failure, with the span log of
`service-a: validate-cep`. -/
def validateCEP (reqBody : Option String) :
    Except String String × List SpanEvent :=
  let sp := "service-a: validate-cep"
  match reqBody with
  | none =>
      (.error "invalid request",
       [.start sp, .recordError sp, .setStatus sp false, .close sp])
  | some cep =>
      if cep = "" then
        (.error "cep is required",
         [.start sp, .recordError sp, .setStatus sp false, .close sp])
      else if !IsValidCEP cep then
        (.error "invalid zipcode",
         [.start sp, .recordError sp, .setStatus sp false, .close sp])
      else
        (.ok cep, [.start sp, .setStatus sp true, .close sp])

/-- `Handler.HandleCEP` (instrumented Front Service): root span
`service-a: handle-cep`, then `validateCEP`, then `callServiceB`, with the
outward response chosen by `switch err.Error()` string matching. The
`validateCEP` error switch has no default case; the (unreachable) fall-through
writes nothing, which Go reports as an implicit 200 with empty body. -/
def HandleCEP (serviceBURL : String) (reqBody : Option String)
    (d : DownstreamResult) : HttpResponse × List SpanEvent :=
  let root := "service-a: handle-cep"
  match validateCEP reqBody with
  | (.error e, vlog) =>
      let resp : HttpResponse :=
        if e = "invalid request" then ⟨400, .errMsg "invalid request"⟩
        else if e = "cep is required" then ⟨400, .errMsg "cep is required"⟩
        else if e = "invalid zipcode" then ⟨422, .errMsg "invalid zipcode"⟩
        else ⟨200, .empty⟩
      (resp,
       .start root :: vlog ++
         (if e = "invalid request" ∨ e = "cep is required" ∨ e = "invalid zipcode" then
            [.recordError root, .setStatus root false, .close root]
          else
            [.recordError root, .close root]))
  | (.ok cep, vlog) =>
      match callServiceB serviceBURL cep d with
      | (.error e, clog) =>
          let resp : HttpResponse :=
            if e = "cannot find zipcode" then ⟨404, .errMsg "can not find zipcode"⟩
            else if e = "invalid zipcode" then ⟨422, .errMsg "invalid zipcode"⟩
            else ⟨500, .errMsg "failed to get weather data"⟩
          (resp,
           .start root :: vlog ++ clog ++
             [.recordError root, .setStatus root false, .close root])
      | (.ok w, clog) =>
          (⟨200, .weather ⟨w.city, w.tempC, w.tempF, w.tempK⟩⟩,
           .start root :: vlog ++ clog ++ [.setStatus root true, .close root])

end ServiceA

namespace ServiceAPlain

/-- `callServiceB` (non-instrumented Front Service, `service_a/main.go`):
only status 404 is checked; every other status — 422 and 500 included — falls
through to the JSON decode of the body. Returns the Go error's message string
on failure. -/
def callServiceB (serviceBURL cep : String) (d : DownstreamResult) :
    Except String WeatherResponse :=
  match d with
  | .transportFail u => .error (urlError (serviceBURL ++ "?cep=" ++ cep) u)
  | .response status body =>
      if status = 404 then .error "cannot find zipcode"
      else
        match decodeWeather body with
        | .error m => .error m
        | .ok w => .ok w

/-- `handleCEP` (non-instrumented Front Service): decode body, check empty
cep, check 8-digit rule, call service B, and map the error by comparing
`err.Error()` with `"cannot find zipcode"`. -/
def handleCEP (serviceBURL : String) (reqBody : Option String)
    (d : DownstreamResult) : HttpResponse :=
  match reqBody with
  | none => ⟨400, .errMsg "invalid request"⟩
  | some cep =>
      if cep = "" then ⟨400, .errMsg "cep is required"⟩
      else if !IsValidCEP cep then ⟨422, .errMsg "invalid zipcode"⟩
      else
        match callServiceB serviceBURL cep d with
        | .error e =>
            if e = "cannot find zipcode" then ⟨404, .errMsg "can not find zipcode"⟩
            else ⟨500, .errMsg "failed to get weather data"⟩
        | .ok w => ⟨200, .weather ⟨w.city, w.tempC, w.tempF, w.tempK⟩⟩

end ServiceAPlain

namespace ServiceB

/-- The decoded `ViaCEPResponse` struct: `localidade` (city) and `erro`. -/
structure ViaCEPResponse where
  city : String
  error : String
deriving DecidableEq, Repr

/-- What `json.Unmarshal` sees in the City Resolver's body when decoding into
`ViaCEPResponse`: undecodable, or a JSON object with the `localidade` and
`erro` string fields present or absent (absent decodes to `""`). -/
inductive ViaCEPBody where
  | notJSON (errMsg : String)
  | jsonObj (localidade : Option String) (erro : Option String)
deriving DecidableEq, Repr

/-- What `json.Unmarshal` sees in the Temperature Resolver's body when
decoding into `WeatherAPIResponse`: undecodable, or a JSON object where the
`current.temp_c` number is present or absent (absent decodes to `0`). -/
inductive WeatherBody where
  | notJSON (errMsg : String)
  | jsonObj (tempC : Option ℚ)
deriving DecidableEq, Repr

/-- Outcome of one collaborator HTTP call from the Back Service: transport
failure of `HTTPClient.Do`, failure of `io.ReadAll` on the body, or a
response with status code and body. -/
inductive Fetch (β : Type) where
  | transportFail (m : String)
  | readFail (m : String)
  | response (status : Nat) (body : β)
deriving DecidableEq, Repr

/-- A Back Service error: either the `ErrNotFound` sentinel
(`errors.Is(err, ErrNotFound)` holds, message "can not find zipcode"), or any
other error with its message. -/
inductive BErr where
  | notFound
  | other (m : String)
deriving DecidableEq, Repr

/-- `err.Error()` for a Back Service error. -/
def BErr.message : BErr → String
  | .notFound => "can not find zipcode"
  | .other m => m

/-- `Handler.decodeViaCEPResponse`: unmarshal the body; a non-empty `erro`
field or an empty `localidade` field is `ErrNotFound`; span
`service-b: decode-viacep-response`. -/
def decodeViaCEPResponse (body : ViaCEPBody) :
    Except BErr String × List SpanEvent :=
  let sp := "service-b: decode-viacep-response"
  match body with
  | .notJSON m =>
      (.error (.other m), [.start sp, .recordError sp, .setStatus sp false, .close sp])
  | .jsonObj localidade erro =>
      let viaCEP : ViaCEPResponse := ⟨localidade.getD "", erro.getD ""⟩
      if viaCEP.error ≠ "" ∨ viaCEP.city = "" then
        (.error .notFound,
         [.start sp, .recordError sp, .setStatus sp false, .close sp])
      else
        (.ok viaCEP.city, [.start sp, .setStatus sp true, .close sp])

/-- `Handler.getCityByCEP`: call the City Resolver and decode; the response's
HTTP status code is never inspected; span `service-b: get-city-by-cep`. -/
def getCityByCEP (f : Fetch ViaCEPBody) : Except BErr String × List SpanEvent :=
  let sp := "service-b: get-city-by-cep"
  match f with
  | .transportFail m =>
      (.error (.other m), [.start sp, .recordError sp, .setStatus sp false, .close sp])
  | .readFail m =>
      (.error (.other m), [.start sp, .recordError sp, .setStatus sp false, .close sp])
  | .response _ body =>
      match decodeViaCEPResponse body with
      | (.error e, dlog) =>
          (.error e,
           .start sp :: dlog ++ [.recordError sp, .setStatus sp false, .close sp])
      | (.ok city, dlog) =>
          (.ok city, .start sp :: dlog ++ [.setStatus sp true, .close sp])

/-- `Handler.decodeWeatherResponse`: unmarshal the body and read
`current.temp_c` (absent decodes to `0`); span
`service-b: decode-weather-response`. -/
def decodeWeatherResponse (body : WeatherBody) : Except BErr ℚ × List SpanEvent :=
  let sp := "service-b: decode-weather-response"
  match body with
  | .notJSON m =>
      (.error (.other m), [.start sp, .recordError sp, .setStatus sp false, .close sp])
  | .jsonObj tempC =>
      (.ok (tempC.getD 0), [.start sp, .setStatus sp true, .close sp])

/-- `Handler.getTempByCity`: call the Temperature Resolver; a non-200 status
is an error, then the body is decoded; span `service-b: get-temp-by-city`. -/
def getTempByCity (f : Fetch WeatherBody) : Except BErr ℚ × List SpanEvent :=
  let sp := "service-b: get-temp-by-city"
  match f with
  | .transportFail m =>
      (.error (.other m), [.start sp, .recordError sp, .setStatus sp false, .close sp])
  | .readFail m =>
      (.error (.other m), [.start sp, .recordError sp, .setStatus sp false, .close sp])
  | .response status body =>
      if status ≠ 200 then
        (.error (.other ("weatherapi error: " ++ toString status)),
         [.start sp, .recordError sp, .setStatus sp false, .close sp])
      else
        match decodeWeatherResponse body with
        | (.error e, dlog) =>
            (.error e,
             .start sp :: dlog ++ [.recordError sp, .setStatus sp false, .close sp])
        | (.ok tempC, dlog) =>
            (.ok tempC, .start sp :: dlog ++ [.setStatus sp true, .close sp])

/-- `Handler.convertTemperatures`: `tempF := tempC*1.8 + 32` and
`tempK := tempC + 273.15`, verbatim; span `service-b: convert-temperatures`. -/
def convertTemperatures (tempC : ℚ) : (ℚ × ℚ) × List SpanEvent :=
  let sp := "service-b: convert-temperatures"
  ((tempC * 1.8 + 32, tempC + 273.15), [.start sp, .setStatus sp true, .close sp])

/-- `Handler.WeatherHandler` (instrumented Back Service): root span
`service-b: handle-weather`; validate the `cep` query parameter, resolve the
city, resolve the temperature, convert, respond. The 404 body is
`err.Error()` of `ErrNotFound`. -/
def WeatherHandler (cep : String) (cityRes : Fetch ViaCEPBody)
    (tempRes : Fetch WeatherBody) : HttpResponse × List SpanEvent :=
  let root := "service-b: handle-weather"
  if !IsValidCEP cep then
    (⟨422, .errMsg "invalid zipcode"⟩,
     [.start root, .recordError root, .setStatus root false, .close root])
  else
    match getCityByCEP cityRes with
    | (.error e, citylog) =>
        let resp : HttpResponse :=
          if e = .notFound then ⟨404, .errMsg e.message⟩
          else ⟨500, .errMsg "internal error"⟩
        (resp,
         .start root :: citylog ++ [.recordError root, .setStatus root false, .close root])
    | (.ok city, citylog) =>
        match getTempByCity tempRes with
        | (.error _, templog) =>
            (⟨500, .errMsg "internal error"⟩,
             .start root :: citylog ++ templog ++
               [.recordError root, .setStatus root false, .close root])
        | (.ok tempC, templog) =>
            match convertTemperatures tempC with
            | ((tempF, tempK), convlog) =>
                (⟨200, .weather ⟨city, tempC, tempF, tempK⟩⟩,
                 .start root :: citylog ++ templog ++ convlog ++
                   [.setStatus root true, .close root])

end ServiceB

namespace ServiceBMain

/-- The fate of the Back Service process at startup. -/
inductive Startup where
  | abort
  | serve (weatherAPIKey : String) (port : String)
deriving DecidableEq, Repr

/-- The startup logic of the Back Service `main` (identical in both the
instrumented and non-instrumented variants): read `WEATHERAPI_KEY` from the
environment (`os.Getenv` yields `""` when unset), substitute the hard-coded
default key when empty, panic only if the key is still empty, then default
the port and serve. -/
def startup (weatherKeyEnv portEnv : String) : Startup :=
  let key := if weatherKeyEnv = "" then "54619d224b96477a9d420100262101" else weatherKeyEnv
  if key = "" then .abort
  else .serve key (if portEnv = "" then "8081" else portEnv)

end ServiceBMain

/-! ### Helper lemmas -/

/-- Two strings differ when the first is a concatenation whose left part has a
head character different from the other string's head. -/
theorem append_ne_of_head (a b s : String) (h : a.data.head? ≠ b.data.head?)
    (ha : a.data ≠ []) : a ++ s ≠ b := by
  intro he
  have hd := congrArg String.data he
  rw [String.data_append] at hd
  rw [← hd] at h
  cases hx : a.data with
  | nil => exact ha hx
  | cons c cs => rw [hx] at h; simp at h

theorem urlError_ne_notfound (u v : String) :
    urlError u v ≠ "cannot find zipcode" := by
  unfold urlError
  exact append_ne_of_head _ _ _ (by decide) (by decide)

theorem urlError_ne_invalid (u v : String) :
    urlError u v ≠ "invalid zipcode" := by
  unfold urlError
  exact append_ne_of_head _ _ _ (by decide) (by decide)

theorem statusMsg_ne_notfound (s : Nat) :
    ("service-b returned status " ++ toString s) ≠ "cannot find zipcode" :=
  append_ne_of_head _ _ _ (by decide) (by decide)

theorem statusMsg_ne_invalid (s : Nat) :
    ("service-b returned status " ++ toString s) ≠ "invalid zipcode" :=
  append_ne_of_head _ _ _ (by decide) (by decide)

/-- The character class `[0-9]` of the CEP regex coincides with
`Char.isDigit`. -/
theorem char_class_digit (c : Char) :
    (('0' ≤ c && c ≤ '9') = true) ↔ c.isDigit = true := by
  simp [Char.isDigit, Char.le_def]

/-- A valid CEP is nonempty. -/
theorem valid_cep_ne_empty (cep : String) (hv : IsValidCEP cep = true) :
    cep ≠ "" := by
  intro h
  subst h
  exact absurd hv (by decide)

/-- `validateCEP` on a decoded body with a well-formed CEP succeeds. -/
theorem validateCEP_of_valid (cep : String) (hv : IsValidCEP cep = true) :
    ServiceA.validateCEP (some cep) =
      (.ok cep,
       [.start "service-a: validate-cep",
        .setStatus "service-a: validate-cep" true,
        .close "service-a: validate-cep"]) := by
  unfold ServiceA.validateCEP
  simp [valid_cep_ne_empty cep hv, hv]

/-- `getCityByCEP` on a decoded body that signals not-found. -/
theorem getCityByCEP_notfound (s : Nat) (l e : Option String)
    (hnf : e.getD "" ≠ "" ∨ l.getD "" = "") :
    ServiceB.getCityByCEP (.response s (.jsonObj l e)) =
      (.error .notFound,
       [.start "service-b: get-city-by-cep",
        .start "service-b: decode-viacep-response",
        .recordError "service-b: decode-viacep-response",
        .setStatus "service-b: decode-viacep-response" false,
        .close "service-b: decode-viacep-response",
        .recordError "service-b: get-city-by-cep",
        .setStatus "service-b: get-city-by-cep" false,
        .close "service-b: get-city-by-cep"]) := by
  simp only [ServiceB.getCityByCEP, ServiceB.decodeViaCEPResponse]
  rw [if_pos hnf]
  rfl

/-- `getCityByCEP` on a decoded body carrying a city. -/
theorem getCityByCEP_ok (s : Nat) (l e : Option String)
    (hnf : ¬(e.getD "" ≠ "" ∨ l.getD "" = "")) :
    ServiceB.getCityByCEP (.response s (.jsonObj l e)) =
      (.ok (l.getD ""),
       [.start "service-b: get-city-by-cep",
        .start "service-b: decode-viacep-response",
        .setStatus "service-b: decode-viacep-response" true,
        .close "service-b: decode-viacep-response",
        .setStatus "service-b: get-city-by-cep" true,
        .close "service-b: get-city-by-cep"]) := by
  simp only [ServiceB.getCityByCEP, ServiceB.decodeViaCEPResponse]
  rw [if_neg hnf]
  rfl

/-! ### Claim theorems -/

/-- C5: the postal-code validation function accepts a string if and only if
it consists of exactly 8 digit characters; it rejects every string of a
different length or containing a non-digit, and accepts every 8-digit string
(acceptance depends on the string alone, not on whether the code resolves). -/
theorem c5_cep_validation_iff (s : String) :
    IsValidCEP s = true ↔ s.data.length = 8 ∧ ∀ c ∈ s.data, c.isDigit = true := by
  unfold IsValidCEP
  rw [Bool.and_eq_true, beq_iff_eq, List.all_eq_true]
  show s.data.length = 8 ∧ _ ↔ _
  constructor
  · rintro ⟨h1, h2⟩
    exact ⟨h1, fun c hc => (char_class_digit c).mp (h2 c hc)⟩
  · rintro ⟨h1, h2⟩
    exact ⟨h1, fun c hc => (char_class_digit c).mpr (h2 c hc)⟩

/-- C1: the instrumented Front Service maps each downstream result to exactly
one client-facing outcome: 404 → 404 "can not find zipcode";
422 → 422 "invalid zipcode"; 200 with a decodable body → 200 with the same
fields; any other status, a transport failure, or a decode failure of a 200
body (whose JSON error message is not one of the two sentinel strings the
handler matches on) → 500 "failed to get weather data". -/
theorem c1_front_downstream_mapping (url cep : String) (d : DownstreamResult)
    (hv : IsValidCEP cep = true) :
    (∀ b, d = .response 404 b →
      (ServiceA.HandleCEP url (some cep) d).1 = ⟨404, .errMsg "can not find zipcode"⟩) ∧
    (∀ b, d = .response 422 b →
      (ServiceA.HandleCEP url (some cep) d).1 = ⟨422, .errMsg "invalid zipcode"⟩) ∧
    (∀ b w, d = .response 200 b → decodeWeather b = .ok w →
      (ServiceA.HandleCEP url (some cep) d).1 = ⟨200, .weather w⟩) ∧
    (∀ s b, d = .response s b → s ≠ 404 → s ≠ 422 → s ≠ 200 →
      (ServiceA.HandleCEP url (some cep) d).1 = ⟨500, .errMsg "failed to get weather data"⟩) ∧
    (∀ m, d = .transportFail m →
      (ServiceA.HandleCEP url (some cep) d).1 = ⟨500, .errMsg "failed to get weather data"⟩) ∧
    (∀ m, d = .response 200 (.notJSON m) →
      m ≠ "cannot find zipcode" → m ≠ "invalid zipcode" →
      (ServiceA.HandleCEP url (some cep) d).1 = ⟨500, .errMsg "failed to get weather data"⟩) := by
  refine ⟨?_, ?_, ?_, ?_, ?_, ?_⟩
  · rintro b rfl
    unfold ServiceA.HandleCEP
    rw [validateCEP_of_valid cep hv]
    simp [ServiceA.callServiceB]
  · rintro b rfl
    unfold ServiceA.HandleCEP
    rw [validateCEP_of_valid cep hv]
    simp [ServiceA.callServiceB]
  · rintro b w rfl hw
    unfold ServiceA.HandleCEP
    rw [validateCEP_of_valid cep hv]
    unfold ServiceA.callServiceB
    simp [hw]
  · rintro s b rfl h404 h422 h200
    unfold ServiceA.HandleCEP
    rw [validateCEP_of_valid cep hv]
    unfold ServiceA.callServiceB
    simp only [if_neg h404, if_neg h422, if_pos h200]
    rw [if_neg (statusMsg_ne_notfound s), if_neg (statusMsg_ne_invalid s)]
  · rintro m rfl
    unfold ServiceA.HandleCEP
    rw [validateCEP_of_valid cep hv]
    simp [ServiceA.callServiceB, urlError_ne_notfound, urlError_ne_invalid]
  · rintro m rfl hm1 hm2
    unfold ServiceA.HandleCEP
    rw [validateCEP_of_valid cep hv]
    simp [ServiceA.callServiceB, decodeWeather, hm1, hm2]

/-- C1 witness: at a concrete valid CEP, the 404, transport-failure and
decode-failure branches behave as stated. -/
theorem c1_front_downstream_mapping_witness :
    (ServiceA.HandleCEP "http://b" (some "12345678")
        (.response 404 (.jsonObj none none none none))).1
      = ⟨404, .errMsg "can not find zipcode"⟩ ∧
    (ServiceA.HandleCEP "http://b" (some "12345678")
        (.transportFail "context deadline exceeded")).1
      = ⟨500, .errMsg "failed to get weather data"⟩ ∧
    (ServiceA.HandleCEP "http://b" (some "12345678")
        (.response 200 (.notJSON "unexpected EOF"))).1
      = ⟨500, .errMsg "failed to get weather data"⟩ :=
  ⟨(c1_front_downstream_mapping "http://b" "12345678" _ (by decide)).1 _ rfl,
   (c1_front_downstream_mapping "http://b" "12345678" _ (by decide)).2.2.2.2.1
     "context deadline exceeded" rfl,
   (c1_front_downstream_mapping "http://b" "12345678" _ (by decide)).2.2.2.2.2
     "unexpected EOF" rfl (by decide) (by decide)⟩

/-- C3: on any non-200 downstream status the instrumented Front Service's
response (status and message alike) is the same for arbitrarily different
downstream bodies — the outward status is a function of the Back Service's
status code alone. -/
theorem c3_front_ignores_non200_body (url cep : String)
    (hv : IsValidCEP cep = true) (s : Nat) (hs : s ≠ 200) (b1 b2 : Body) :
    (ServiceA.HandleCEP url (some cep) (.response s b1)).1 =
      (ServiceA.HandleCEP url (some cep) (.response s b2)).1 := by
  unfold ServiceA.HandleCEP
  rw [validateCEP_of_valid cep hv]
  unfold ServiceA.callServiceB
  by_cases h404 : s = 404
  · simp [h404]
  · by_cases h422 : s = 422
    · simp [h404, h422]
    · simp [if_neg h404, if_neg h422, if_pos hs]

/-- C3 witness: a 500 from the Back Service with a decodable body and with an
undecodable body produce the same Front Service response. -/
theorem c3_front_ignores_non200_body_witness :
    (ServiceA.HandleCEP "http://b" (some "12345678")
        (.response 500 (.jsonObj (some "X") (some 1) (some 2) (some 3)))).1 =
      (ServiceA.HandleCEP "http://b" (some "12345678")
        (.response 500 (.notJSON "boom"))).1 :=
  c3_front_ignores_non200_body "http://b" "12345678" (by decide) 500 (by decide) _ _

/-- C7: the instrumented Front Service rejects, in order: an undecodable
body with 400 "invalid request"; an empty `cep` field with 400
"cep is required"; a non-8-digit `cep` with 422 "invalid zipcode"; and only a
well-formed CEP reaches the downstream call (observable as the
`service-a: call-service-b` span being started). -/
theorem c7_front_prevalidation (url : String) (d : DownstreamResult) :
    ((ServiceA.HandleCEP url none d).1 = ⟨400, .errMsg "invalid request"⟩) ∧
    ((ServiceA.HandleCEP url (some "") d).1 = ⟨400, .errMsg "cep is required"⟩) ∧
    (∀ cep, cep ≠ "" → IsValidCEP cep = false →
      (ServiceA.HandleCEP url (some cep) d).1 = ⟨422, .errMsg "invalid zipcode"⟩) ∧
    (SpanEvent.start "service-a: call-service-b" ∉ (ServiceA.HandleCEP url none d).2) ∧
    (∀ cep, IsValidCEP cep = false →
      SpanEvent.start "service-a: call-service-b" ∉ (ServiceA.HandleCEP url (some cep) d).2) ∧
    (∀ cep, IsValidCEP cep = true →
      SpanEvent.start "service-a: call-service-b" ∈ (ServiceA.HandleCEP url (some cep) d).2) := by
  refine ⟨?_, ?_, ?_, ?_, ?_, ?_⟩
  · rfl
  · rfl
  · intro cep hne hv
    simp [ServiceA.HandleCEP, ServiceA.validateCEP, hne, hv]
  · simp [ServiceA.HandleCEP, ServiceA.validateCEP]
  · intro cep hv
    by_cases hne : cep = ""
    · subst hne; simp [ServiceA.HandleCEP, ServiceA.validateCEP]
    · simp [ServiceA.HandleCEP, ServiceA.validateCEP, hne, hv]
  · intro cep hv
    unfold ServiceA.HandleCEP
    rw [validateCEP_of_valid cep hv]
    cases d with
    | transportFail m => simp [ServiceA.callServiceB]
    | response s b =>
        unfold ServiceA.callServiceB
        by_cases h404 : s = 404
        · simp [h404]
        · by_cases h422 : s = 422
          · simp [h404, h422]
          · by_cases h200 : s = 200
            · subst h200
              cases b with
              | notJSON m => simp [decodeWeather]
              | jsonObj c tc tf tk => simp [decodeWeather]
            · simp [if_neg h404, if_neg h422, if_pos h200]

/-- C7 witness: concrete requests exercising the undecodable-body, malformed
CEP and valid-CEP branches. -/
theorem c7_front_prevalidation_witness :
    (ServiceA.HandleCEP "http://b" none (.transportFail "x")).1
      = ⟨400, .errMsg "invalid request"⟩ ∧
    (ServiceA.HandleCEP "http://b" (some "123") (.transportFail "x")).1
      = ⟨422, .errMsg "invalid zipcode"⟩ ∧
    SpanEvent.start "service-a: call-service-b"
      ∈ (ServiceA.HandleCEP "http://b" (some "12345678") (.transportFail "x")).2 :=
  ⟨(c7_front_prevalidation "http://b" _).1,
   (c7_front_prevalidation "http://b" _).2.2.1 "123" (by decide) (by decide),
   (c7_front_prevalidation "http://b" _).2.2.2.2.2 "12345678" (by decide)⟩

/-- C2: the Back Service handler's response is exactly one of:
422 "invalid zipcode" on a malformed `cep`; 404 "can not find zipcode" when
the City Resolver's decoded body has a non-empty `erro` or an empty
`localidade`; 500 "internal error" when the City Resolver call fails at
transport, read or decode level, or when the Temperature Resolver returns a
non-200 status, fails at transport or read level, or its body fails to
decode; and 200 with `{city, temp_C, temp_F, temp_K}` otherwise. -/
theorem c2_back_response_taxonomy (cep : String) (cr : ServiceB.Fetch ServiceB.ViaCEPBody)
    (tr : ServiceB.Fetch ServiceB.WeatherBody) :
    (IsValidCEP cep = false →
      (ServiceB.WeatherHandler cep cr tr).1 = ⟨422, .errMsg "invalid zipcode"⟩) ∧
    (IsValidCEP cep = true →
      ((∀ s l e, cr = .response s (.jsonObj l e) → (e.getD "" ≠ "" ∨ l.getD "" = "") →
          (ServiceB.WeatherHandler cep cr tr).1 = ⟨404, .errMsg "can not find zipcode"⟩) ∧
       (∀ m, cr = .transportFail m →
          (ServiceB.WeatherHandler cep cr tr).1 = ⟨500, .errMsg "internal error"⟩) ∧
       (∀ m, cr = .readFail m →
          (ServiceB.WeatherHandler cep cr tr).1 = ⟨500, .errMsg "internal error"⟩) ∧
       (∀ s m, cr = .response s (.notJSON m) →
          (ServiceB.WeatherHandler cep cr tr).1 = ⟨500, .errMsg "internal error"⟩) ∧
       (∀ s l e, cr = .response s (.jsonObj l e) → e.getD "" = "" → l.getD "" ≠ "" →
          ((∀ m, tr = .transportFail m →
              (ServiceB.WeatherHandler cep cr tr).1 = ⟨500, .errMsg "internal error"⟩) ∧
           (∀ m, tr = .readFail m →
              (ServiceB.WeatherHandler cep cr tr).1 = ⟨500, .errMsg "internal error"⟩) ∧
           (∀ st b, tr = .response st b → st ≠ 200 →
              (ServiceB.WeatherHandler cep cr tr).1 = ⟨500, .errMsg "internal error"⟩) ∧
           (∀ m, tr = .response 200 (.notJSON m) →
              (ServiceB.WeatherHandler cep cr tr).1 = ⟨500, .errMsg "internal error"⟩) ∧
           (∀ t, tr = .response 200 (.jsonObj t) →
              (ServiceB.WeatherHandler cep cr tr).1 =
                ⟨200, .weather ⟨l.getD "", t.getD 0,
                                t.getD 0 * 1.8 + 32, t.getD 0 + 273.15⟩⟩))))) := by
  constructor
  · intro hv
    simp [ServiceB.WeatherHandler, hv]
  · intro hv
    refine ⟨?_, ?_, ?_, ?_, ?_⟩
    · rintro s l e rfl hnf
      simp only [ServiceB.WeatherHandler, hv, Bool.not_true, if_false,
        ServiceB.getCityByCEP, ServiceB.decodeViaCEPResponse]
      rw [if_pos hnf]
      simp [ServiceB.BErr.message]
    · rintro m rfl
      simp [ServiceB.WeatherHandler, hv, ServiceB.getCityByCEP]
    · rintro m rfl
      simp [ServiceB.WeatherHandler, hv, ServiceB.getCityByCEP]
    · rintro s m rfl
      simp [ServiceB.WeatherHandler, hv, ServiceB.getCityByCEP,
        ServiceB.decodeViaCEPResponse]
    · rintro s l e rfl he hl
      have hcity : ¬(e.getD "" ≠ "" ∨ l.getD "" = "") := by simp [he, hl]
      refine ⟨?_, ?_, ?_, ?_, ?_⟩
      · rintro m rfl
        simp only [ServiceB.WeatherHandler, hv, Bool.not_true, if_false,
          ServiceB.getCityByCEP, ServiceB.decodeViaCEPResponse]
        rw [if_neg hcity]
        simp [ServiceB.getTempByCity]
      · rintro m rfl
        simp only [ServiceB.WeatherHandler, hv, Bool.not_true, if_false,
          ServiceB.getCityByCEP, ServiceB.decodeViaCEPResponse]
        rw [if_neg hcity]
        simp [ServiceB.getTempByCity]
      · rintro st b rfl hst
        simp only [ServiceB.WeatherHandler, hv, Bool.not_true, if_false,
          ServiceB.getCityByCEP, ServiceB.decodeViaCEPResponse]
        rw [if_neg hcity]
        simp only [ServiceB.getTempByCity]
        rw [if_pos hst]
        simp
      · rintro m rfl
        simp only [ServiceB.WeatherHandler, hv, Bool.not_true, if_false,
          ServiceB.getCityByCEP, ServiceB.decodeViaCEPResponse]
        rw [if_neg hcity]
        simp [ServiceB.getTempByCity, ServiceB.decodeWeatherResponse]
      · rintro t rfl
        simp only [ServiceB.WeatherHandler, hv, Bool.not_true, if_false,
          ServiceB.getCityByCEP, ServiceB.decodeViaCEPResponse]
        rw [if_neg hcity]
        simp [ServiceB.getTempByCity, ServiceB.decodeWeatherResponse,
          ServiceB.convertTemperatures]

/-- C2 witness: at a concrete CEP, the malformed, not-found, city-transport
failure, temperature non-200 and success branches behave as stated. -/
theorem c2_back_response_taxonomy_witness :
    (ServiceB.WeatherHandler "123" (.transportFail "x") (.transportFail "x")).1
      = ⟨422, .errMsg "invalid zipcode"⟩ ∧
    (ServiceB.WeatherHandler "00000000" (.response 200 (.jsonObj none (some "true")))
        (.transportFail "x")).1 = ⟨404, .errMsg "can not find zipcode"⟩ ∧
    (ServiceB.WeatherHandler "01001000" (.transportFail "connection refused")
        (.transportFail "x")).1 = ⟨500, .errMsg "internal error"⟩ ∧
    (ServiceB.WeatherHandler "01001000" (.response 200 (.jsonObj (some "Sao Paulo") none))
        (.response 500 (.notJSON "err"))).1 = ⟨500, .errMsg "internal error"⟩ ∧
    (ServiceB.WeatherHandler "01001000" (.response 200 (.jsonObj (some "Sao Paulo") none))
        (.response 200 (.jsonObj (some 10)))).1
      = ⟨200, .weather ⟨"Sao Paulo", 10, 10 * 1.8 + 32, 10 + 273.15⟩⟩ :=
  ⟨(c2_back_response_taxonomy "123" _ _).1 (by decide),
   ((c2_back_response_taxonomy "00000000" _ _).2 (by decide)).1 200 none (some "true")
     rfl (by decide),
   ((c2_back_response_taxonomy "01001000" _ _).2 (by decide)).2.1 "connection refused" rfl,
   (((c2_back_response_taxonomy "01001000" _ _).2 (by decide)).2.2.2.2 200
      (some "Sao Paulo") none rfl rfl (by decide)).2.2.1 500 _ rfl (by decide),
   (((c2_back_response_taxonomy "01001000" _ _).2 (by decide)).2.2.2.2 200
      (some "Sao Paulo") none rfl rfl (by decide)).2.2.2.2 (some 10) rfl⟩

/-- C6: whenever the Back Service responds 200, the encoded temperatures
satisfy `temp_F = temp_C * 1.8 + 32` and `temp_K = temp_C + 273.15` exactly
(the formulas are applied to the Celsius reading without rounding), for every
Celsius value including zero and negative readings. -/
theorem c6_conversion_exact (cep : String) (cr : ServiceB.Fetch ServiceB.ViaCEPBody)
    (tr : ServiceB.Fetch ServiceB.WeatherBody) (w : WeatherResponse)
    (h : (ServiceB.WeatherHandler cep cr tr).1 = ⟨200, .weather w⟩) :
    w.tempF = w.tempC * 1.8 + 32 ∧ w.tempK = w.tempC + 273.15 := by
  unfold ServiceB.WeatherHandler at h
  by_cases hv : IsValidCEP cep = true
  · simp only [hv, Bool.not_true, if_false] at h
    rcases hc : ServiceB.getCityByCEP cr with ⟨res, citylog⟩
    rw [hc] at h
    cases res with
    | error e =>
        by_cases he : e = .notFound <;> simp [he] at h
    | ok city =>
        rcases ht : ServiceB.getTempByCity tr with ⟨tres, tlog⟩
        rw [ht] at h
        cases tres with
        | error e => simp at h
        | ok t =>
            cases w with
            | mk wc wtc wtf wtk =>
                have h' : (⟨200, RespBody.weather ⟨city, t, t * 1.8 + 32, t + 273.15⟩⟩ :
                    HttpResponse) = ⟨200, .weather ⟨wc, wtc, wtf, wtk⟩⟩ := h
                rw [HttpResponse.mk.injEq, RespBody.weather.injEq,
                  WeatherResponse.mk.injEq] at h'
                obtain ⟨-, -, htc, htf, htk⟩ := h'
                subst htc; subst htf; subst htk
                exact ⟨rfl, rfl⟩
  · rw [Bool.not_eq_true] at hv
    simp [hv] at h

/-- C6 witness: a concrete successful request with a negative Celsius reading
satisfies the exact conversion formulas. -/
theorem c6_conversion_exact_witness :
    (ServiceB.WeatherHandler "01001000" (.response 200 (.jsonObj (some "X") none))
        (.response 200 (.jsonObj (some (-5))))).1
      = ⟨200, .weather ⟨"X", -5, -5 * 1.8 + 32, -5 + 273.15⟩⟩ ∧
    ((-5 : ℚ) * 1.8 + 32 = (-5 : ℚ) * 1.8 + 32 ∧ (-5 : ℚ) + 273.15 = (-5 : ℚ) + 273.15) :=
  ⟨rfl, c6_conversion_exact "01001000" (.response 200 (.jsonObj (some "X") none))
    (.response 200 (.jsonObj (some (-5)))) ⟨"X", -5, -5 * 1.8 + 32, -5 + 273.15⟩ rfl⟩

/-- C8: contrary to the claim, the Back Service startup never aborts on a
missing `WEATHERAPI_KEY`: when the environment variable is unset (empty), a
hard-coded default key is substituted before the emptiness check, so the
panic is unreachable and the process serves with the default key. -/
theorem c8_startup_never_aborts :
    ServiceBMain.startup "" "" =
      ServiceBMain.Startup.serve "54619d224b96477a9d420100262101" "8081" ∧
    ∀ k p, ServiceBMain.startup k p ≠ ServiceBMain.Startup.abort := by
  refine ⟨rfl, ?_⟩
  intro k p
  unfold ServiceBMain.startup
  by_cases hk : k = "" <;> simp [hk]

/-- C8 witness: on a concrete environment with `WEATHERAPI_KEY` unset the
process does not abort. -/
theorem c8_startup_never_aborts_witness :
    ServiceBMain.startup "" "9000" ≠ ServiceBMain.Startup.abort :=
  c8_startup_never_aborts.2 "" "9000"

/-- C9: on a downstream 422 whose body is a decodable JSON object (such as
the Back Service's own error body), the non-instrumented Front Service
decodes it into a zero-valued `WeatherResponse` and answers 200 with city ""
and all temperatures 0, while the instrumented variant answers 422 — the two
variants are not equivalent on downstream-422 inputs. -/
theorem c9_plain_front_decodes_422 :
    ServiceAPlain.handleCEP "http://service-b:8081/weather" (some "12345678")
        (.response 422 (.jsonObj none none none none))
      = ⟨200, .weather ⟨"", 0, 0, 0⟩⟩ ∧
    (ServiceA.HandleCEP "http://service-b:8081/weather" (some "12345678")
        (.response 422 (.jsonObj none none none none))).1
      = ⟨422, .errMsg "invalid zipcode"⟩ ∧
    ServiceAPlain.handleCEP "http://service-b:8081/weather" (some "12345678")
        (.response 422 (.jsonObj none none none none))
      ≠ (ServiceA.HandleCEP "http://service-b:8081/weather" (some "12345678")
          (.response 422 (.jsonObj none none none none))).1 := by
  refine ⟨rfl, rfl, ?_⟩
  intro h
  exact absurd (congrArg HttpResponse.status h) (by decide)

/-- C10: a 200 from the Temperature Resolver whose JSON body lacks
`current.temp_c` (for example `\x7b\x7d`) is treated by the Back Service as a
successful reading of 0 °C: it responds 200 with `temp_C` 0, `temp_F` 32 and
`temp_K` 273.15 instead of reporting an upstream failure. -/
theorem c10_missing_temp_decodes_to_zero :
    (ServiceB.WeatherHandler "01001000"
        (.response 200 (.jsonObj (some "Sao Paulo") none))
        (.response 200 (.jsonObj none))).1
      = ⟨200, .weather ⟨"Sao Paulo", 0, 32, 273.15⟩⟩ := by
  have h : (ServiceB.WeatherHandler "01001000"
      (.response 200 (.jsonObj (some "Sao Paulo") none))
      (.response 200 (.jsonObj none))).1
        = ⟨200, .weather ⟨"Sao Paulo", 0, 0 * 1.8 + 32, 0 + 273.15⟩⟩ := rfl
  rw [h]
  norm_num

/-- C4: in both instrumented handlers, on every exit path (validation
rejection, not-found, upstream failure, decode failure, success) every span
started during the request is closed exactly once, with a terminal status set
before the close. -/
theorem c4_spans_closed_once :
    (∀ url b d, spansWellFormed (ServiceA.HandleCEP url b d).2 = true) ∧
    (∀ cep cr tr, spansWellFormed (ServiceB.WeatherHandler cep cr tr).2 = true) := by
  constructor
  · intro url b d
    cases b with
    | none => rfl
    | some cep =>
        by_cases hc : cep = ""
        · subst hc; rfl
        · by_cases hv : IsValidCEP cep = true
          · unfold ServiceA.HandleCEP
            rw [validateCEP_of_valid cep hv]
            cases d with
            | transportFail m => rfl
            | response s body =>
                by_cases h404 : s = 404
                · subst h404; rfl
                · by_cases h422 : s = 422
                  · subst h422; rfl
                  · by_cases h200 : s = 200
                    · subst h200
                      cases body with
                      | notJSON m => rfl
                      | jsonObj c tc tf tk => rfl
                    · unfold ServiceA.callServiceB
                      simp only [if_neg h404, if_neg h422, if_pos h200]
                      rfl
          · rw [Bool.not_eq_true] at hv
            simp only [ServiceA.HandleCEP, ServiceA.validateCEP, if_neg hc, hv,
              Bool.not_false, if_true]
            rfl
  · intro cep cr tr
    by_cases hv : IsValidCEP cep = true
    · unfold ServiceB.WeatherHandler
      simp only [hv, Bool.not_true, Bool.false_eq_true, if_false]
      cases cr with
      | transportFail m => rfl
      | readFail m => rfl
      | response s body =>
          cases body with
          | notJSON m => rfl
          | jsonObj l e =>
              by_cases hnf : e.getD "" ≠ "" ∨ l.getD "" = ""
              · rw [getCityByCEP_notfound s l e hnf]
                rfl
              · rw [getCityByCEP_ok s l e hnf]
                cases tr with
                | transportFail m => rfl
                | readFail m => rfl
                | response st tb =>
                    by_cases h200 : st = 200
                    · subst h200
                      cases tb with
                      | notJSON m => rfl
                      | jsonObj t => rfl
                    · simp only [ServiceB.getTempByCity]
                      rw [if_pos h200]
                      rfl
    · rw [Bool.not_eq_true] at hv
      simp only [ServiceB.WeatherHandler, hv, Bool.not_false, if_true]
      rfl

/-- C4 witness: the span log of a concrete instrumented request is
well-formed. -/
theorem c4_spans_closed_once_witness :
    spansWellFormed (ServiceA.HandleCEP "http://b" (some "12345678")
      (.transportFail "x")).2 = true :=
  c4_spans_closed_once.1 "http://b" (some "12345678") (.transportFail "x")

/-- C5 witness: the validation characterization at a concrete 8-digit
string. -/
theorem c5_cep_validation_iff_witness :
    (IsValidCEP "87043480" = true ↔
      "87043480".data.length = 8 ∧ ∀ c ∈ "87043480".data, c.isDigit = true) :=
  c5_cep_validation_iff "87043480"
